import Mathlib

/-!
Verification of the MuttR transcript-cleanup / cadence / confidence core
(`muttr/cleanup.py`, `muttr/cadence.py`, `muttr/confidence.py`).

The Python modules are embedded shallowly:

* Every regular expression of `cleanup.py` is hand-compiled to a term of the
  small `RE` syntax below, and executed by a backtracking matcher `reM` that
  mirrors Python `re` semantics for the constructs the module uses
  (left-to-right scan, leftmost match, alternatives tried in order, greedy
  quantifiers, capture groups, case-insensitive backreferences, word
  boundaries).  Character classes follow Python's ASCII behaviour, which is
  sufficient for the ASCII strings handled here.
* `re.sub` / `re.split` / `re.findall` / `re.search` / `re.match` are
  implemented by the drivers `reSub`, `reSplit`, `reSplitCap`, `reCount`,
  `reTest`, `reMatchStart` with Python's non-overlapping scan discipline.
* Pure numeric code (`cadence.py`, `confidence.py`) uses `ℚ` for Python
  floats; the decimal threshold constants are represented exactly.

All definitions are executable so that theorems can be evaluated on concrete
inputs by `decide` / `rfl`.
-/

set_option maxRecDepth 40000

namespace Muttr

/-! ## Character classes (Python `re`, ASCII range) -/

/-- Python `\s` restricted to the ASCII whitespace characters that can occur
in the strings handled here (also the set stripped by `str.strip()`). -/
def isPySpace (c : Char) : Bool :=
  c == ' ' || c == '\t' || c == '\n' || c == '\r' || c == '\x0b' || c == '\x0c'

/-- Python `\w` (ASCII): letters, digits, underscore. -/
def isWordChar (c : Char) : Bool :=
  c.isAlphanum || c == '_'

/-- Python `\d` (ASCII digits). -/
def isDigitChar (c : Char) : Bool := c.isDigit

/-- ASCII letter, the class `[A-Za-z]`. -/
def isAsciiLetter (c : Char) : Bool :=
  ('A' ≤ c && c ≤ 'Z') || ('a' ≤ c && c ≤ 'z')

/-- The class `[a-z]`. -/
def isLowerLetter (c : Char) : Bool := 'a' ≤ c && c ≤ 'z'

/-- The class `[A-Z]`. -/
def isUpperLetter (c : Char) : Bool := 'A' ≤ c && c ≤ 'Z'

/-! ## Regular-expression syntax

Terms of `RE` are hand-compiled versions of the `re.compile` patterns in
`cleanup.py`; each pattern definition below carries the original Python
pattern in its doc string. -/

inductive RE : Type where
  | eps : RE
  | cls : (Char → Bool) → RE
  | seq : RE → RE → RE
  | alt : RE → RE → RE
  | star : RE → RE
  | group : Nat → RE → RE
  | bref : Nat → Bool → RE
  | wb : RE

/-- Literal (case-sensitive) character. -/
def RE.ch (c : Char) : RE := RE.cls (fun d => d == c)

/-- Case-insensitive literal character (pattern compiled with `re.IGNORECASE`). -/
def RE.ci (c : Char) : RE := RE.cls (fun d => d.toLower == c.toLower)

/-- Case-sensitive literal string. -/
def RE.str (s : String) : RE :=
  s.data.foldr (fun c r => RE.seq (RE.ch c) r) RE.eps

/-- Case-insensitive literal string. -/
def RE.istr (s : String) : RE :=
  s.data.foldr (fun c r => RE.seq (RE.ci c) r) RE.eps

/-- `r?` (greedy). -/
def RE.opt (r : RE) : RE := RE.alt r RE.eps

/-- `r+` (greedy). -/
def RE.plus (r : RE) : RE := RE.seq r (RE.star r)

/-- Ordered alternation `a|b|c|...` (alternatives tried left to right). -/
def RE.alts : List RE → RE
  | [] => RE.cls (fun _ => false)
  | [r] => r
  | r :: rs => RE.alt r (RE.alts rs)

/-- Chain of sequencing. -/
def RE.cat : List RE → RE
  | [] => RE.eps
  | [r] => r
  | r :: rs => RE.seq r (RE.cat rs)

/-! ## Backtracking matcher -/

/-- Capture environment: group index ↦ captured characters (latest binding
first, as Python keeps a group's most recent match). -/
abbrev Caps := List (Nat × List Char)

def capLookup (caps : Caps) (n : Nat) : Option (List Char) :=
  (caps.find? (fun p => p.1 == n)).map Prod.snd

/-- Captured text of group `n` as a list (empty when unset). -/
def capStr (caps : Caps) (n : Nat) : List Char :=
  (capLookup caps n).getD []

/-- Is the gap between `prev` (character just before the cursor) and the head
of `s` a Python `\b` word boundary? -/
def atWB (prev : Option Char) (s : List Char) : Bool :=
  let a := match prev with | some c => isWordChar c | none => false
  let b := match s with | c :: _ => isWordChar c | [] => false
  a != b

/-- Result threaded through the matcher: character before the cursor,
remaining input, captures. -/
abbrev MRes := Option Char × List Char × Caps

/-- Match a previously captured literal (used by backreferences);
`ci` selects case-insensitive comparison (`re.IGNORECASE`). -/
def matchCapLit (ci : Bool) :
    List Char → Option Char → List Char → Option (Option Char × List Char)
  | [], prev, s => some (prev, s)
  | c :: cs, _, d :: rest =>
      if (if ci then c.toLower == d.toLower else c == d) then
        matchCapLit ci cs (some d) rest
      else none
  | _ :: _, _, [] => none

/-- CPS backtracking matcher: try to match `r` at the cursor described by
`prev`/`s` with captures `caps`, calling `k` on every way of matching (in
Python's preference order) until one succeeds.  `fuel` bounds the number of
matcher steps; all uses below supply ample fuel for the strings involved. -/
def reM (fuel : Nat) (r : RE) (prev : Option Char) (s : List Char) (caps : Caps)
    (k : Option Char → List Char → Caps → Option MRes) : Option MRes :=
  match fuel with
  | 0 => none
  | fuel + 1 =>
    match r with
    | .eps => k prev s caps
    | .cls p =>
        match s with
        | c :: rest => if p c then k (some c) rest caps else none
        | [] => none
    | .seq a b =>
        reM fuel a prev s caps (fun p' s' caps' => reM fuel b p' s' caps' k)
    | .alt a b =>
        match reM fuel a prev s caps k with
        | some res => some res
        | none => reM fuel b prev s caps k
    | .star a =>
        match reM fuel a prev s caps (fun p' s' caps' =>
            if s'.length < s.length then reM fuel (.star a) p' s' caps' k
            else none) with
        | some res => some res
        | none => k prev s caps
    | .group n a =>
        reM fuel a prev s caps (fun p' s' caps' =>
          k p' s' ((n, s.take (s.length - s'.length)) :: caps'))
    | .bref n ci =>
        match capLookup caps n with
        | none => none
        | some lit =>
            match matchCapLit ci lit prev s with
            | some (p', s') => k p' s' caps
            | none => none
    | .wb => if atWB prev s then k prev s caps else none

/-- Fuel that is ample for every pattern/input pair used in this file. -/
def reFuel (s : List Char) : Nat := 4000 * (s.length + 4)

/-- Try to match `r` anchored at the current cursor.  On success returns
(matched text, character before rest, rest, captures). -/
def tryMatch (r : RE) (prev : Option Char) (s : List Char) :
    Option (List Char × Option Char × List Char × Caps) :=
  match reM (reFuel s) r prev s [] (fun p' s' caps' => some (p', s', caps')) with
  | some (p', s', caps) => some (s.take (s.length - s'.length), p', s', caps)
  | none => none

/-- One `re.sub` scan step (Python: leftmost match, replace, continue after
the match; on an empty match emit one character and continue). -/
def reSubGo (r : RE) (f : List Char → Caps → List Char) :
    Nat → Option Char → List Char → List Char
  | 0, _, s => s
  | fuel + 1, prev, s =>
    match tryMatch r prev s with
    | some (matched, p', rest, caps) =>
        if matched.isEmpty then
          match s with
          | [] => f matched caps
          | c :: cs => f matched caps ++ c :: reSubGo r f fuel (some c) cs
        else
          f matched caps ++ reSubGo r f fuel p' rest
    | none =>
        match s with
        | [] => []
        | c :: cs => c :: reSubGo r f fuel (some c) cs

/-- `re.sub(pattern, repl, s)` with a replacement function of the match. -/
def reSub (r : RE) (f : List Char → Caps → List Char) (s : String) : String :=
  String.mk (reSubGo r f (s.data.length + 1) none s.data)

/-- `re.search(pattern, s) is not None`. -/
def reTestGo (r : RE) : Nat → Option Char → List Char → Bool
  | 0, _, _ => false
  | fuel + 1, prev, s =>
    match tryMatch r prev s with
    | some _ => true
    | none =>
        match s with
        | [] => false
        | c :: cs => reTestGo r fuel (some c) cs

def reTest (r : RE) (s : String) : Bool :=
  reTestGo r (s.data.length + 1) none s.data

/-- `len(re.findall(pattern, s))` for the non-nullable patterns used here. -/
def reCountGo (r : RE) : Nat → Option Char → List Char → Nat
  | 0, _, _ => 0
  | fuel + 1, prev, s =>
    match tryMatch r prev s with
    | some (matched, p', rest, _) =>
        if matched.isEmpty then
          match s with
          | [] => 1
          | c :: cs => 1 + reCountGo r fuel (some c) cs
        else
          1 + reCountGo r fuel p' rest
    | none =>
        match s with
        | [] => 0
        | c :: cs => reCountGo r fuel (some c) cs

def reCount (r : RE) (s : String) : Nat :=
  reCountGo r (s.data.length + 1) none s.data

/-- `re.split` for a pattern without capture groups (the patterns used with
it never match the empty string). -/
def reSplitGo (r : RE) : Nat → Option Char → List Char → List Char → List String
  | 0, _, s, acc => [String.mk (acc.reverse ++ s)]
  | fuel + 1, prev, s, acc =>
    match tryMatch r prev s with
    | some (matched, p', rest, _) =>
        if matched.isEmpty then
          match s with
          | [] => [String.mk acc.reverse]
          | c :: cs => reSplitGo r fuel (some c) cs (c :: acc)
        else
          String.mk acc.reverse :: reSplitGo r fuel p' rest []
    | none =>
        match s with
        | [] => [String.mk acc.reverse]
        | c :: cs => reSplitGo r fuel (some c) cs (c :: acc)

def reSplit (r : RE) (s : String) : List String :=
  reSplitGo r (s.data.length + 1) none s.data []

/-- `re.split` for a pattern with exactly one capture group: Python
interleaves the captured text between the segments. -/
def reSplitCapGo (r : RE) (gi : Nat) :
    Nat → Option Char → List Char → List Char → List String
  | 0, _, s, acc => [String.mk (acc.reverse ++ s)]
  | fuel + 1, prev, s, acc =>
    match tryMatch r prev s with
    | some (matched, p', rest, caps) =>
        if matched.isEmpty then
          match s with
          | [] => [String.mk acc.reverse]
          | c :: cs => reSplitCapGo r gi fuel (some c) cs (c :: acc)
        else
          String.mk acc.reverse :: String.mk (capStr caps gi) ::
            reSplitCapGo r gi fuel p' rest []
    | none =>
        match s with
        | [] => [String.mk acc.reverse]
        | c :: cs => reSplitCapGo r gi fuel (some c) cs (c :: acc)

def reSplitCap (r : RE) (gi : Nat) (s : String) : List String :=
  reSplitCapGo r gi (s.data.length + 1) none s.data []

/-- `re.match(pattern, s) is not None` (anchored at the start only). -/
def reMatchStart (r : RE) (s : String) : Bool :=
  (tryMatch r none s.data).isSome

/-! ## Python string primitives -/

/-- `str.strip()` on a character list. -/
def pyStripList (s : List Char) : List Char :=
  ((s.dropWhile isPySpace).reverse.dropWhile isPySpace).reverse

/-- `str.strip()`. -/
def pyStrip (s : String) : String := String.mk (pyStripList s.data)

/-- `str.rstrip()`. -/
def pyRStrip (s : String) : String :=
  String.mk (s.data.reverse.dropWhile isPySpace).reverse

/-- `str.rstrip(chars)` for a single strip character, e.g. `rstrip(",")`. -/
def pyRStripChar (c : Char) (s : String) : String :=
  String.mk (s.data.reverse.dropWhile (fun d => d == c)).reverse

/-- `str.replace(pat, rep)`: replace all non-overlapping occurrences, left to
right (`pat` is non-empty in every use below). -/
def listReplaceAll (pat rep : List Char) : Nat → List Char → List Char
  | 0, s => s
  | fuel + 1, s =>
    if pat.isPrefixOf s then
      rep ++ listReplaceAll pat rep fuel (s.drop pat.length)
    else
      match s with
      | [] => []
      | c :: cs => c :: listReplaceAll pat rep fuel cs

/-- `str.replace(pat, rep)`. -/
def pyReplace (s pat rep : String) : String :=
  String.mk (listReplaceAll pat.data rep.data (s.data.length + 1) s.data)

/-- `pat` occurs in `s` starting at some suffix. -/
def containsSubGo (pat : List Char) : List Char → Bool
  | [] => pat.isEmpty
  | c :: cs => pat.isPrefixOf (c :: cs) || containsSubGo pat cs

/-- `sub in s` (substring test). -/
def containsSub (s sub : String) : Bool :=
  containsSubGo sub.data s.data

/-- `str.split("\n")` (keeps empty segments). -/
def splitNlGo : List Char → List Char → List (List Char)
  | [], acc => [acc.reverse]
  | c :: cs, acc =>
      if c == '\n' then acc.reverse :: splitNlGo cs []
      else splitNlGo cs (c :: acc)

/-- `str.split("\n")`. -/
def splitLines (s : String) : List String :=
  (splitNlGo s.data []).map String.mk

/-- `"\n".join(lines)`. -/
def joinNlGo : List (List Char) → List Char
  | [] => []
  | [x] => x
  | x :: xs => x ++ '\n' :: joinNlGo xs

/-- `"\n".join(lines)`. -/
def joinLines (l : List String) : String :=
  String.mk (joinNlGo (l.map String.data))

/-- `str.lower()` (ASCII). -/
def lowerStr (s : String) : String := String.mk (s.data.map Char.toLower)

/-- `str.startswith(p)`. -/
def startsWithStr (s p : String) : Bool := p.data.isPrefixOf s.data

/-- Decimal digits of `n`, most significant first (`str(n)`). -/
def natToStrGo : Nat → Nat → List Char → List Char
  | 0, _, acc => acc
  | fuel + 1, n, acc =>
      let d := Char.ofNat (48 + n % 10)
      if n < 10 then d :: acc else natToStrGo fuel (n / 10) (d :: acc)

/-- `str(n)` for a natural number. -/
def natToStr (n : Nat) : String := String.mk (natToStrGo (n + 1) n [])

/-- `int(s)` for a string of decimal digits. -/
def parseNatGo : List Char → Nat → Nat
  | [], acc => acc
  | c :: cs, acc => parseNatGo cs (acc * 10 + (c.toNat - 48))

/-- `int(s)` for the digit strings produced by the list patterns. -/
def strToNat (s : String) : Nat := parseNatGo s.data 0

/-- `s[0].upper() + s[1:]` (identity on the empty string). -/
def upperFirst (s : String) : String :=
  match s.data with
  | [] => s
  | c :: rest => String.mk (c.toUpper :: rest)

/-- Last character, if any. -/
def lastChar (s : String) : Option Char := s.data.getLast?

/-! ## cleanup.py — filler words -/

/-- `FILLER_WORDS` (each entry is wrapped in `\b...\b` in the source). -/
def FILLER_WORDS : List String :=
  ["um", "uh", "you know", "basically", "actually", "literally",
   "I mean", "sort of", "kind of"]

/-- One `\b<word>\b` alternative of the filler pattern. -/
def fillerAlt (w : String) : RE := RE.cat [RE.wb, RE.istr w, RE.wb]

/-- `FILLER_PATTERN = ,?\s*(?:\bum\b|...|\bkind of\b)\s*,?\s*` (IGNORECASE). -/
def FILLER_PATTERN : RE :=
  RE.cat [RE.opt (RE.ch ','), RE.star (RE.cls isPySpace),
    RE.alts (FILLER_WORDS.map fillerAlt),
    RE.star (RE.cls isPySpace), RE.opt (RE.ch ','), RE.star (RE.cls isPySpace)]

/-- The alternation inside group 1 of `_LIKE_PROTECT`, in source order:
`looks?|looking|feels?|felt|feeling|seems?|seemed|seeming|sounds?|sounded|sounding|smells?|smelled|tastes?|tasted|just|more|much|something|anything|nothing|everything|[Ii]|you|we|they|he|she|it`. -/
def likeProtectAlts : RE :=
  RE.alts [
    RE.seq (RE.istr "look") (RE.opt (RE.ci 's')), RE.istr "looking",
    RE.seq (RE.istr "feel") (RE.opt (RE.ci 's')), RE.istr "felt", RE.istr "feeling",
    RE.seq (RE.istr "seem") (RE.opt (RE.ci 's')), RE.istr "seemed", RE.istr "seeming",
    RE.seq (RE.istr "sound") (RE.opt (RE.ci 's')), RE.istr "sounded", RE.istr "sounding",
    RE.seq (RE.istr "smell") (RE.opt (RE.ci 's')), RE.istr "smelled",
    RE.seq (RE.istr "taste") (RE.opt (RE.ci 's')), RE.istr "tasted",
    RE.istr "just", RE.istr "more", RE.istr "much",
    RE.istr "something", RE.istr "anything", RE.istr "nothing", RE.istr "everything",
    RE.ci 'i', RE.istr "you", RE.istr "we", RE.istr "they",
    RE.istr "he", RE.istr "she", RE.istr "it"]

/-- `_LIKE_PROTECT = \b(<alts>)\s+(like)\b` (IGNORECASE). -/
def LIKE_PROTECT : RE :=
  RE.cat [RE.wb, RE.group 1 likeProtectAlts, RE.plus (RE.cls isPySpace),
    RE.group 2 (RE.istr "like"), RE.wb]

/-- `_LIKE_FILLER = ,?\s*\blike\b\s*,?\s*` (IGNORECASE). -/
def LIKE_FILLER : RE :=
  RE.cat [RE.opt (RE.ch ','), RE.star (RE.cls isPySpace),
    RE.wb, RE.istr "like", RE.wb,
    RE.star (RE.cls isPySpace), RE.opt (RE.ch ','), RE.star (RE.cls isPySpace)]

/-- `_LIKE_SENTINEL = "\x00COMP\x00"`. -/
def LIKE_SENTINEL : String := "\x00COMP\x00"

/-! ## cleanup.py — paragraph / line-break commands -/

/-- `_PERIOD_NEW_PARA = [.\s]*\b(?:period)\s+(?:new\s+paragraph)\b` (IGNORECASE). -/
def PERIOD_NEW_PARA : RE :=
  RE.cat [RE.star (RE.cls (fun c => c == '.' || isPySpace c)),
    RE.wb, RE.istr "period", RE.plus (RE.cls isPySpace),
    RE.istr "new", RE.plus (RE.cls isPySpace), RE.istr "paragraph", RE.wb]

/-- `_NEW_PARAGRAPH = \s*\b(?:new|next)\s+paragraph\b\s*` (IGNORECASE). -/
def NEW_PARAGRAPH : RE :=
  RE.cat [RE.star (RE.cls isPySpace), RE.wb,
    RE.alt (RE.istr "new") (RE.istr "next"), RE.plus (RE.cls isPySpace),
    RE.istr "paragraph", RE.wb, RE.star (RE.cls isPySpace)]

/-- `_NEW_LINE = \s*\b(?:new|next)\s+line\b\s*` (IGNORECASE). -/
def NEW_LINE : RE :=
  RE.cat [RE.star (RE.cls isPySpace), RE.wb,
    RE.alt (RE.istr "new") (RE.istr "next"), RE.plus (RE.cls isPySpace),
    RE.istr "line", RE.wb, RE.star (RE.cls isPySpace)]

/-! ## cleanup.py — list patterns -/

/-- `_BULLET_ORDINALS` in source order: the cardinal words then the digits. -/
def BULLET_ORDINALS : List String :=
  ["one", "two", "three", "four", "five", "six", "seven", "eight", "nine", "ten",
   "1", "2", "3", "4", "5", "6", "7", "8", "9", "10"]

/-- `_BULLET_ITEM = \s*\bbullet\s*(?:point)?\s*(?:(?:one|...|10)\s+)?` (IGNORECASE). -/
def BULLET_ITEM : RE :=
  RE.cat [RE.star (RE.cls isPySpace), RE.wb, RE.istr "bullet",
    RE.star (RE.cls isPySpace), RE.opt (RE.istr "point"),
    RE.star (RE.cls isPySpace),
    RE.opt (RE.seq (RE.alts (BULLET_ORDINALS.map RE.istr))
      (RE.plus (RE.cls isPySpace)))]

/-- `_DASH_ITEM = \s*\bdash\b\s*` (IGNORECASE). -/
def DASH_ITEM : RE :=
  RE.cat [RE.star (RE.cls isPySpace), RE.wb, RE.istr "dash", RE.wb,
    RE.star (RE.cls isPySpace)]

/-- `_NEXT_ITEM = \s*\bnext\s+item\b\s*` (IGNORECASE). -/
def NEXT_ITEM : RE :=
  RE.cat [RE.star (RE.cls isPySpace), RE.wb, RE.istr "next",
    RE.plus (RE.cls isPySpace), RE.istr "item", RE.wb,
    RE.star (RE.cls isPySpace)]

/-- `_ORDINAL_MAP` (spoken ordinal word → digit string). -/
def ORDINAL_MAP : List (String × String) :=
  [("first", "1"), ("second", "2"), ("third", "3"), ("fourth", "4"), ("fifth", "5"),
   ("sixth", "6"), ("seventh", "7"), ("eighth", "8"), ("ninth", "9"), ("tenth", "10")]

/-- `_CARDINAL_MAP` (spoken cardinal word → digit string). -/
def CARDINAL_MAP : List (String × String) :=
  [("one", "1"), ("two", "2"), ("three", "3"), ("four", "4"), ("five", "5"),
   ("six", "6"), ("seven", "7"), ("eight", "8"), ("nine", "9"), ("ten", "10")]

/-- The class `[.,):\s]`. -/
def isListSep (c : Char) : Bool :=
  c == '.' || c == ',' || c == ')' || c == ':' || isPySpace c

/-- `_NUMBER_WORD_ITEM = \s*\bnumber\s+(one|...|ten)\b[.,):\s]*` (IGNORECASE). -/
def NUMBER_WORD_ITEM : RE :=
  RE.cat [RE.star (RE.cls isPySpace), RE.wb, RE.istr "number",
    RE.plus (RE.cls isPySpace),
    RE.group 1 (RE.alts ((CARDINAL_MAP.map Prod.fst).map RE.istr)),
    RE.wb, RE.star (RE.cls isListSep)]

/-- `_NUMBER_DIGIT_ITEM = \s*\bnumber\s+(\d{1,2})\b[.,):\s]*` (IGNORECASE). -/
def NUMBER_DIGIT_ITEM : RE :=
  RE.cat [RE.star (RE.cls isPySpace), RE.wb, RE.istr "number",
    RE.plus (RE.cls isPySpace),
    RE.group 1 (RE.seq (RE.cls isDigitChar) (RE.opt (RE.cls isDigitChar))),
    RE.wb, RE.star (RE.cls isListSep)]

/-- `_ORDINAL_ITEM = \s*\b(first|...|tenth)\b[.,):\s]*` (IGNORECASE). -/
def ORDINAL_ITEM : RE :=
  RE.cat [RE.star (RE.cls isPySpace), RE.wb,
    RE.group 1 (RE.alts ((ORDINAL_MAP.map Prod.fst).map RE.istr)),
    RE.wb, RE.star (RE.cls isListSep)]

/-- `_DIGIT_DOT_ITEM = \s*(\d{1,2})\s*[.)]\s*` (case-sensitive). -/
def DIGIT_DOT_ITEM : RE :=
  RE.cat [RE.star (RE.cls isPySpace),
    RE.group 1 (RE.seq (RE.cls isDigitChar) (RE.opt (RE.cls isDigitChar))),
    RE.star (RE.cls isPySpace), RE.cls (fun c => c == '.' || c == ')'),
    RE.star (RE.cls isPySpace)]

/-- `_CARDINAL_PAREN_ITEM = \s*\b(one|...|ten)\s*\)\s*` (IGNORECASE). -/
def CARDINAL_PAREN_ITEM : RE :=
  RE.cat [RE.star (RE.cls isPySpace), RE.wb,
    RE.group 1 (RE.alts ((CARDINAL_MAP.map Prod.fst).map RE.istr)),
    RE.star (RE.cls isPySpace), RE.ch ')', RE.star (RE.cls isPySpace)]

/-- `_SINGLE_WORD_RE = \b[A-Za-z][A-Za-z'-]*\b`. -/
def SINGLE_WORD_RE : RE :=
  RE.cat [RE.wb, RE.cls isAsciiLetter,
    RE.star (RE.cls (fun c => isAsciiLetter c || c == '\'' || c == '-')), RE.wb]

/-! ## cleanup.py — token preservation -/

/-- `_PRESERVE_PATTERN = (?:https?://\S+|www\.\S+|\S+@\S+\.\S+|`[^`]+`)`
(alternatives tried in this order). -/
def PRESERVE_PATTERN : RE :=
  RE.alts [
    RE.cat [RE.str "http", RE.opt (RE.ch 's'), RE.str "://",
      RE.plus (RE.cls (fun c => !isPySpace c))],
    RE.cat [RE.str "www.", RE.plus (RE.cls (fun c => !isPySpace c))],
    RE.cat [RE.plus (RE.cls (fun c => !isPySpace c)), RE.ch '@',
      RE.plus (RE.cls (fun c => !isPySpace c)), RE.ch '.',
      RE.plus (RE.cls (fun c => !isPySpace c))],
    RE.cat [RE.ch '`', RE.plus (RE.cls (fun c => c != '`')), RE.ch '`']]

/-- Placeholder string `"\x00PRESERVE<n>\x00"`. -/
def preservePlaceholder (n : Nat) : String :=
  "\x00PRESERVE" ++ natToStr n ++ "\x00"

/-- Scan loop of `_extract_preserved`: replace each leftmost match of
`_PRESERVE_PATTERN` by a numbered placeholder, collecting
(placeholder, original) pairs in match order. -/
def extractPreservedGo :
    Nat → Option Char → List Char → Nat → List Char × List (String × String)
  | 0, _, s, _ => (s, [])
  | fuel + 1, prev, s, counter =>
    match tryMatch PRESERVE_PATTERN prev s with
    | some (matched, p', rest, _) =>
        let ph := preservePlaceholder counter
        let out := extractPreservedGo fuel p' rest (counter + 1)
        (ph.data ++ out.1, (ph, String.mk matched) :: out.2)
    | none =>
        match s with
        | [] => ([], [])
        | c :: cs =>
            let out := extractPreservedGo fuel (some c) cs counter
            (c :: out.1, out.2)

/-- `_extract_preserved`. -/
def extractPreserved (text : String) : String × List (String × String) :=
  let out := extractPreservedGo (text.data.length + 1) none text.data 0
  (String.mk out.1, out.2)

/-- `_restore_preserved`: `text.replace(placeholder, original)` for each
recorded token, in order. -/
def restorePreserved (text : String) (tokens : List (String × String)) : String :=
  tokens.foldl (fun t p => pyReplace t p.1 p.2) text

/-! ## cleanup.py — core cleanup stages -/

/-- `_process_paragraph_commands`. -/
def processParagraphCommands (text : String) : String :=
  let text := reSub PERIOD_NEW_PARA (fun _ _ => ".\n\n".data) text
  let text := reSub NEW_PARAGRAPH (fun _ _ => "\n\n".data) text
  reSub NEW_LINE (fun _ _ => "\n".data) text

/-- `_normalize_whitespace`: per line collapse `[ \t]+` to one space and
strip; then collapse `\n{3,}` to `\n\n`; then strip. -/
def normalizeWhitespace (text : String) : String :=
  let lines := (splitLines text).map (fun line =>
    pyStrip (reSub (RE.plus (RE.cls (fun c => c == ' ' || c == '\t')))
      (fun _ _ => " ".data) line))
  let result := joinLines lines
  let result := reSub (RE.cat [RE.ch '\n', RE.ch '\n', RE.plus (RE.ch '\n')])
    (fun _ _ => "\n\n".data) result
  pyStrip result

/-- `\b(\w+)(\s+\1)+\b` (IGNORECASE), the pattern of `_remove_repeated_words`. -/
def REPEATED_WORDS : RE :=
  RE.cat [RE.wb, RE.group 1 (RE.plus (RE.cls isWordChar)),
    RE.plus (RE.group 2 (RE.seq (RE.plus (RE.cls isPySpace)) (RE.bref 1 true))),
    RE.wb]

/-- `_remove_repeated_words`: sub with replacement `\1`. -/
def removeRepeatedWords (text : String) : String :=
  reSub REPEATED_WORDS (fun _ caps => capStr caps 1) text

/-- `\b(\w+(?:\s+\w+)?)\s+\1\b` (IGNORECASE), the pattern of
`_remove_false_starts`. -/
def FALSE_STARTS : RE :=
  RE.cat [RE.wb,
    RE.group 1 (RE.seq (RE.plus (RE.cls isWordChar))
      (RE.opt (RE.seq (RE.plus (RE.cls isPySpace)) (RE.plus (RE.cls isWordChar))))),
    RE.plus (RE.cls isPySpace), RE.bref 1 true, RE.wb]

/-- `_remove_false_starts`: sub with replacement `\1`. -/
def removeFalseStarts (text : String) : String :=
  reSub FALSE_STARTS (fun _ caps => capStr caps 1) text

/-- `_remove_fillers`: strip the fixed fillers, protect non-filler "like"
(replacing the match by group 1, a space and the sentinel), strip the
remaining "like" occurrences, restore the sentinel. -/
def removeFillers (text : String) : String :=
  let text := reSub FILLER_PATTERN (fun _ _ => " ".data) text
  let text := reSub LIKE_PROTECT
    (fun _ caps => capStr caps 1 ++ " ".data ++ LIKE_SENTINEL.data) text
  let text := reSub LIKE_FILLER (fun _ _ => " ".data) text
  pyReplace text LIKE_SENTINEL "like"

/-- `([.!?])\s+([a-z])`, the pattern of `_cap_after_break`. -/
def CAP_BREAK : RE :=
  RE.cat [RE.group 1 (RE.cls (fun c => c == '.' || c == '!' || c == '?')),
    RE.plus (RE.cls isPySpace), RE.group 2 (RE.cls isLowerLetter)]

/-- `_sentence_case`: strip each line, capitalize its first letter, then
capitalize after sentence-ending punctuation (the two groups are re-joined
by a single space, as in the source's replacement function). -/
def sentenceCase (text : String) : String :=
  if text = "" then text
  else
    let lines := (splitLines text).map (fun line =>
      let line := pyStrip line
      if line ≠ "" then
        reSub CAP_BREAK
          (fun _ caps => capStr caps 1 ++ " ".data ++ (capStr caps 2).map Char.toUpper)
          (upperFirst line)
      else line)
    joinLines lines

/-- `^\d+\.\s`, the anchored pattern checked by `_ensure_terminal_punctuation`. -/
def NUMBERED_LINE_START : RE :=
  RE.cat [RE.plus (RE.cls isDigitChar), RE.ch '.', RE.cls isPySpace]

/-- `_ensure_terminal_punctuation`. -/
def ensureTerminalPunctuation (text : String) : String :=
  if text = "" then text
  else
    let lines := (splitLines text).map (fun line =>
      let stripped := pyRStrip line
      if stripped ≠ "" && (startsWithStr stripped "- " || startsWithStr stripped "* ") then
        stripped
      else if stripped ≠ "" && reMatchStart NUMBERED_LINE_START stripped then
        stripped
      else if stripped ≠ "" &&
          !(match lastChar stripped with
            | some c => c == '.' || c == '!' || c == '?'
            | none => false) then
        stripped ++ "."
      else stripped)
    joinLines lines

/-- `_stronger_punctuation_smoothing` (the five subs, in source order). -/
def strongerPunctuationSmoothing (text : String) : String :=
  let text := reSub (RE.seq (RE.ch '.') (RE.plus (RE.ch '.')))
    (fun _ _ => ".".data) text
  let text := reSub (RE.cat [RE.plus (RE.cls isPySpace),
      RE.group 1 (RE.cls (fun c => c == '.' || c == '!' || c == '?' || c == ',' ||
        c == ';' || c == ':'))])
    (fun _ caps => capStr caps 1) text
  let text := reSub (RE.cat [
      RE.group 1 (RE.cls (fun c => c == '.' || c == '!' || c == '?')),
      RE.group 2 (RE.cls isUpperLetter)])
    (fun _ caps => capStr caps 1 ++ " ".data ++ capStr caps 2) text
  let text := reSub (RE.seq (RE.ch ',') (RE.ch '.')) (fun _ _ => ".".data) text
  reSub (RE.seq (RE.ch '.') (RE.ch ',')) (fun _ _ => ",".data) text

/-! ## cleanup.py — proper-noun dictionaries -/

def DAYS_OF_WEEK : List String :=
  ["Monday", "Tuesday", "Wednesday", "Thursday", "Friday", "Saturday", "Sunday"]

def MONTHS : List String :=
  ["January", "February", "March", "April", "May", "June",
   "July", "August", "September", "October", "November", "December"]

def COMMON_FIRST_NAMES : List String :=
  ["James", "Mary", "Robert", "Patricia", "John", "Jennifer", "Michael",
   "Linda", "David", "Elizabeth", "William", "Barbara", "Richard", "Susan",
   "Joseph", "Jessica", "Thomas", "Sarah", "Christopher", "Karen", "Charles",
   "Daniel", "Matthew", "Anthony", "Mark", "Donald", "Steven", "Andrew",
   "Paul", "Joshua", "Kenneth", "Kevin", "Brian", "George", "Timothy",
   "Nancy", "Lisa", "Betty", "Margaret", "Sandra", "Ashley", "Dorothy",
   "Kimberly", "Emily", "Donna", "Michelle", "Carol", "Amanda", "Melissa",
   "Deborah", "Stephanie", "Rebecca", "Sharon", "Laura", "Cynthia",
   "Kathleen", "Amy", "Angela", "Shirley", "Anna", "Brenda", "Pamela",
   "Emma", "Nicole", "Helen", "Samantha", "Katherine", "Christine",
   "Hannah", "Rachel", "Carolyn", "Janet", "Catherine", "Maria",
   "Heather", "Diane", "Ruth", "Julie", "Olivia", "Joyce", "Virginia",
   "Victoria", "Kelly", "Lauren", "Christina", "Joan", "Evelyn", "Judith",
   "Andrea", "Megan", "Cheryl", "Jacqueline", "Teresa",
   "Alice", "Martha", "Ann", "Gloria", "Kathryn", "Marie",
   "Peter", "Ryan", "Jason", "Gary", "Jeff", "Eric", "Stephen",
   "Larry", "Justin", "Scott", "Brandon", "Benjamin", "Samuel",
   "Raymond", "Gregory", "Frank", "Alexander", "Patrick", "Jack",
   "Dennis", "Jerry", "Tyler", "Aaron", "Jose", "Nathan", "Henry",
   "Adam", "Douglas", "Zachary", "Harold", "Carl", "Arthur",
   "Dylan", "Ethan", "Noah", "Logan", "Lucas", "Aiden", "Liam",
   "Mason", "Elijah", "Owen", "Sebastian", "Gabriel", "Carter",
   "Jayden", "Luke", "Isaac"]

/-- `BRAND_NAMES` (lowercase trigger → correct casing), in source order. -/
def BRAND_NAMES : List (String × String) :=
  [("iphone", "iPhone"), ("ipad", "iPad"), ("ipod", "iPod"), ("imac", "iMac"),
   ("ios", "iOS"), ("ipados", "iPadOS"), ("macos", "macOS"), ("watchos", "watchOS"),
   ("tvos", "tvOS"), ("visionos", "visionOS"), ("airpods", "AirPods"),
   ("macbook", "MacBook"), ("google", "Google"), ("gmail", "Gmail"),
   ("youtube", "YouTube"), ("android", "Android"), ("chromebook", "Chromebook"),
   ("microsoft", "Microsoft"), ("windows", "Windows"), ("linkedin", "LinkedIn"),
   ("github", "GitHub"), ("gitlab", "GitLab"), ("chatgpt", "ChatGPT"),
   ("openai", "OpenAI"), ("claude", "Claude"), ("anthropic", "Anthropic"),
   ("amazon", "Amazon"), ("aws", "AWS"), ("netflix", "Netflix"),
   ("spotify", "Spotify"), ("tesla", "Tesla"), ("facebook", "Facebook"),
   ("instagram", "Instagram"), ("tiktok", "TikTok"), ("whatsapp", "WhatsApp"),
   ("snapchat", "Snapchat"), ("twitter", "Twitter"), ("uber", "Uber"),
   ("airbnb", "Airbnb"), ("slack", "Slack"), ("zoom", "Zoom"),
   ("docker", "Docker"), ("kubernetes", "Kubernetes"), ("python", "Python"),
   ("javascript", "JavaScript"), ("typescript", "TypeScript"),
   ("postgres", "Postgres"), ("postgresql", "PostgreSQL"), ("mongodb", "MongoDB"),
   ("redis", "Redis"), ("pytorch", "PyTorch"), ("tensorflow", "TensorFlow"),
   ("numpy", "NumPy"), ("pandas", "Pandas"), ("react", "React"),
   ("nodejs", "Node.js"), ("node.js", "Node.js"), ("vue", "Vue"),
   ("angular", "Angular"), ("django", "Django"), ("flask", "Flask"),
   ("wordpress", "WordPress"), ("shopify", "Shopify"), ("photoshop", "Photoshop"),
   ("figma", "Figma"), ("notion", "Notion"), ("trello", "Trello"),
   ("jira", "Jira"), ("asana", "Asana"), ("safari", "Safari"),
   ("firefox", "Firefox"), ("chrome", "Chrome"), ("bluetooth", "Bluetooth"),
   ("wifi", "Wi-Fi"), ("wi-fi", "Wi-Fi"), ("usb", "USB"), ("api", "API"),
   ("sql", "SQL"), ("html", "HTML"), ("css", "CSS"), ("json", "JSON"),
   ("xml", "XML"), ("http", "HTTP"), ("https", "HTTPS"), ("url", "URL"),
   ("pdf", "PDF"), ("jpeg", "JPEG"), ("png", "PNG"), ("gif", "GIF"),
   ("svg", "SVG"), ("nasa", "NASA"), ("fbi", "FBI"), ("cia", "CIA"),
   ("nfl", "NFL"), ("nba", "NBA"), ("mlb", "MLB"), ("nhl", "NHL"),
   ("usa", "USA"), ("uk", "UK"), ("eu", "EU"), ("un", "UN")]

def COUNTRIES_AND_CITIES : List String :=
  ["Afghanistan", "Albania", "Algeria", "Argentina", "Armenia", "Australia",
   "Austria", "Azerbaijan", "Bangladesh", "Belgium", "Bolivia", "Brazil",
   "Bulgaria", "Cambodia", "Canada", "Chile", "China", "Colombia",
   "Croatia", "Cuba", "Cyprus", "Denmark", "Ecuador", "Egypt", "England",
   "Estonia", "Ethiopia", "Finland", "France", "Georgia", "Germany",
   "Ghana", "Greece", "Guatemala", "Hungary", "Iceland", "India",
   "Indonesia", "Iran", "Iraq", "Ireland", "Israel", "Italy", "Jamaica",
   "Japan", "Jordan", "Kazakhstan", "Kenya", "Korea", "Kuwait",
   "Latvia", "Lebanon", "Libya", "Lithuania", "Luxembourg", "Malaysia",
   "Mexico", "Mongolia", "Morocco", "Nepal", "Netherlands", "Nigeria",
   "Norway", "Oman", "Pakistan", "Panama", "Paraguay", "Peru",
   "Philippines", "Poland", "Portugal", "Qatar", "Romania", "Russia",
   "Scotland", "Singapore", "Slovakia", "Slovenia", "Somalia",
   "Spain", "Sweden", "Switzerland", "Syria", "Taiwan", "Thailand",
   "Turkey", "Uganda", "Ukraine", "Uruguay", "Uzbekistan", "Venezuela",
   "Vietnam", "Wales", "Yemen", "Zimbabwe",
   "Africa", "Antarctica", "Asia", "Europe", "Oceania",
   "London", "Paris", "Tokyo", "Berlin", "Madrid", "Rome", "Beijing",
   "Shanghai", "Mumbai", "Delhi", "Bangkok", "Seoul", "Sydney",
   "Melbourne", "Toronto", "Vancouver", "Montreal", "Chicago",
   "Boston", "Seattle", "Denver", "Austin", "Dallas", "Houston",
   "Phoenix", "Atlanta", "Miami", "Orlando", "Portland", "Detroit",
   "Minneapolis", "Philadelphia", "Pittsburgh", "Baltimore", "Nashville",
   "Charlotte", "Raleigh", "Indianapolis", "Columbus", "Cleveland",
   "Cincinnati", "Milwaukee", "Sacramento", "Brooklyn", "Manhattan",
   "Dublin", "Edinburgh", "Amsterdam", "Brussels", "Vienna", "Prague",
   "Warsaw", "Budapest", "Copenhagen", "Stockholm", "Oslo", "Helsinki",
   "Lisbon", "Barcelona", "Munich", "Hamburg", "Milan", "Naples",
   "Istanbul", "Cairo", "Lagos", "Nairobi", "Johannesburg", "Dubai",
   "Singapore", "Taipei", "Osaka", "Kyoto", "Auckland", "Wellington",
   "Honolulu", "Alaska", "Hawaii", "California", "Texas", "Florida",
   "Massachusetts", "Connecticut", "Colorado", "Virginia", "Maryland",
   "Georgia", "Tennessee", "Carolina", "Illinois", "Michigan",
   "Minnesota", "Wisconsin", "Missouri", "Oregon", "Washington",
   "Arizona", "Nevada", "Utah", "Montana", "Idaho",
   "Mississippi", "Alabama", "Louisiana", "Kentucky", "Arkansas",
   "Oklahoma", "Kansas", "Nebraska", "Iowa",
   "New York", "Los Angeles", "San Francisco", "San Diego",
   "San Antonio", "San Jose", "Las Vegas", "New Orleans",
   "Salt Lake City", "Kansas City", "Oklahoma City", "New Jersey",
   "New Mexico", "New Hampshire", "Rhode Island", "South Dakota",
   "North Dakota", "South Carolina", "North Carolina", "West Virginia"]

/-- `CUSTOM_PROPER_NOUNS` (empty at module load; `clean_text` is analyzed in
that initial state). -/
def CUSTOM_PROPER_NOUNS : List (String × String) := []

/-- `_PROPER_NOUN_MAP` as rebuilt by `_rebuild_proper_noun_map`.  The Python
dict is populated in the order names/days/months, then places, then
`BRAND_NAMES`, then `CUSTOM_PROPER_NOUNS`, a later insertion overwriting an
earlier one with the same key; this association list therefore puts the later
sources (and, within one source, the later entries) first, so that
`List.lookup`-style search finds the binding that would be in the dict. -/
def properNounPairs : List (String × String) :=
  (CUSTOM_PROPER_NOUNS.map (fun p => (lowerStr p.1, p.2))).reverse ++
  BRAND_NAMES.reverse ++
  (COUNTRIES_AND_CITIES.map (fun s => (lowerStr s, s))).reverse ++
  ((DAYS_OF_WEEK ++ MONTHS ++ COMMON_FIRST_NAMES).map (fun s => (lowerStr s, s))).reverse

/-- Dict lookup in `_PROPER_NOUN_MAP`. -/
def properNounLookup (k : String) : Option String :=
  (properNounPairs.find? (fun p => p.1 == k)).map Prod.snd

/-- `_MULTI_WORD_NOUNS`: the entries of `_PROPER_NOUN_MAP` whose key contains
a space (in dict order; every such key occurs once in the sources). -/
def MULTI_WORD_NOUNS : List (String × String) :=
  ((COUNTRIES_AND_CITIES.map (fun s => (lowerStr s, s))).filter
    (fun p => p.1.data.any (fun c => c == ' ')))

/-- Membership of a key in `_MULTI_WORD_NOUNS`. -/
def isMultiWordKey (k : String) : Bool :=
  MULTI_WORD_NOUNS.any (fun p => p.1 == k)

/-- Stable insertion into a list sorted by decreasing key length (Python's
stable `sorted(..., key=lambda x: -len(x[0]))`). -/
def insertByKeyLenDesc (x : String × String) :
    List (String × String) → List (String × String)
  | [] => [x]
  | y :: ys =>
      if y.1.data.length < x.1.data.length then x :: y :: ys
      else y :: insertByKeyLenDesc x ys

/-- Stable sort by decreasing key length. -/
def sortByKeyLenDesc (l : List (String × String)) : List (String × String) :=
  l.foldr insertByKeyLenDesc []

/-- `_capitalize_proper_nouns`: case-insensitive literal substitution of the
multi-word nouns (longest key first), then the single-word token scan. -/
def capitalizeProperNouns (text : String) : String :=
  let text := (sortByKeyLenDesc MULTI_WORD_NOUNS).foldl
    (fun t p => reSub (RE.istr p.1) (fun _ _ => p.2.data) t) text
  reSub SINGLE_WORD_RE
    (fun matched _ =>
      let lc := lowerStr (String.mk matched)
      if !isMultiWordKey lc then
        match properNounLookup lc with
        | some v => v.data
        | none => matched
      else matched)
    text

/-! ## cleanup.py — structure formatting -/

/-- `_has_bullet_markers`: at least two `_BULLET_ITEM` matches or at least
two `_DASH_ITEM` matches. -/
def hasBulletMarkers (text : String) : Bool :=
  reCount BULLET_ITEM text ≥ 2 || reCount DASH_ITEM text ≥ 2

/-- `_has_numbered_markers`: any of the five numbered-list patterns matches
somewhere in the text. -/
def hasNumberedMarkers (text : String) : Bool :=
  reTest NUMBER_WORD_ITEM text || reTest NUMBER_DIGIT_ITEM text ||
  reTest ORDINAL_ITEM text || reTest DIGIT_DOT_ITEM text ||
  reTest CARDINAL_PAREN_ITEM text

/-- The items computed by `_format_bullet_list`: split on `_BULLET_ITEM`,
then `_DASH_ITEM`, then `_NEXT_ITEM`, keep the non-blank parts and trim
stray commas. -/
def bulletItems (text : String) : List String :=
  let parts := reSplit BULLET_ITEM text
  let expanded := (parts.map (fun part =>
    ((reSplit DASH_ITEM part).map (fun s => reSplit NEXT_ITEM s)).flatten)).flatten
  (expanded.filter (fun p => p ≠ "" && pyStrip p ≠ "")).map
    (fun p => pyStrip (pyRStripChar ',' (pyStrip p)))

/-- `_format_bullet_list`. -/
def formatBulletList (text : String) : String :=
  let items := bulletItems text
  if items = [] then text
  else if items.length = 1 then text
  else
    joinLines (items.filterMap (fun item =>
      let item := pyStrip item
      if item = "" then none
      else some ("- " ++ pyRStripChar '.' (upperFirst item))))

/-- `content.strip().rstrip(",").strip()` applied to a split chunk. -/
def chunkContent (s : String) : String := pyStrip (pyRStripChar ',' (pyStrip s))

/-- The `while i < len(chunks) - 1: ... i += 2` walk over the split result
(after the preamble): successive (capture, content) pairs. -/
def chunkPairs : List String → List (String × String)
  | a :: b :: rest => (a, b) :: chunkPairs rest
  | _ => []

/-- Shared tail of every `_format_numbered_list` branch: optionally the
preamble line, then one `"<n>. <content>"` line per item. -/
def numberedLines (preamble : String) (items : List (Nat × String)) : String :=
  let lines := (if preamble ≠ "" then [preamble] else []) ++
    items.map (fun it => natToStr it.1 ++ ". " ++ it.2)
  joinLines lines

/-- Item list of the `number <word>` branch. -/
def numberWordItems (chunks : List String) : List (Nat × String) :=
  (chunkPairs (chunks.drop 1)).filterMap (fun pr =>
    let numWord := lowerStr pr.1
    let content := chunkContent pr.2
    let num := ((CARDINAL_MAP.find? (fun q => q.1 == numWord)).map Prod.snd).getD numWord
    if content ≠ "" then
      some (strToNat num, pyRStripChar '.' (upperFirst content))
    else none)

/-- Item list of the `number <digit>` and `N.`/`N)` branches. -/
def numberDigitItems (chunks : List String) : List (Nat × String) :=
  (chunkPairs (chunks.drop 1)).filterMap (fun pr =>
    let content := chunkContent pr.2
    if content ≠ "" then
      some (strToNat pr.1, pyRStripChar '.' (upperFirst content))
    else none)

/-- Item list of the ordinal branch (`first ... second ...`). -/
def ordinalItems (chunks : List String) : List (Nat × String) :=
  (chunkPairs (chunks.drop 1)).filterMap (fun pr =>
    let ordWord := lowerStr pr.1
    let content := chunkContent pr.2
    match (ORDINAL_MAP.find? (fun q => q.1 == ordWord)).map Prod.snd with
    | some num =>
        if content ≠ "" then
          some (strToNat num, pyRStripChar '.' (upperFirst content))
        else none
    | none => none)

/-- `_format_numbered_list`: try the five spoken-number patterns in source
order, returning the first formatting that yields items (the ordinal and
`N.` branches require at least two).  The `items` accumulator is a single
list shared by all branches in the source (a branch that fails its return
test leaves its items behind for the later branches), so it is threaded
through the branches here. -/
def formatNumberedList (text : String) : String :=
  let items0 : List (Nat × String) := []
  let chunks1 := reSplitCap NUMBER_WORD_ITEM 1 text
  let items1 := if chunks1.length > 1 then items0 ++ numberWordItems chunks1 else items0
  if chunks1.length > 1 ∧ items1 ≠ [] then
    numberedLines (pyStrip (chunks1.headD "")) items1
  else
    let chunks2 := reSplitCap NUMBER_DIGIT_ITEM 1 text
    let items2 := if chunks2.length > 1 then items1 ++ numberDigitItems chunks2 else items1
    if chunks2.length > 1 ∧ items2 ≠ [] then
      numberedLines (pyStrip (chunks2.headD "")) items2
    else
      let chunks3 := reSplitCap ORDINAL_ITEM 1 text
      let items3 := if chunks3.length > 2 then items2 ++ ordinalItems chunks3 else items2
      if chunks3.length > 2 ∧ items3 ≠ [] ∧ items3.length ≥ 2 then
        numberedLines (pyStrip (chunks3.headD "")) items3
      else
        let chunks4 := reSplitCap CARDINAL_PAREN_ITEM 1 text
        let items4 := if chunks4.length > 1 then items3 ++ numberWordItems chunks4 else items3
        if chunks4.length > 1 ∧ items4 ≠ [] then
          numberedLines (pyStrip (chunks4.headD "")) items4
        else
          let chunks5 := reSplitCap DIGIT_DOT_ITEM 1 text
          let items5 := if chunks5.length > 2 then items4 ++ numberDigitItems chunks5 else items4
          if chunks5.length > 2 ∧ items5 ≠ [] ∧ items5.length ≥ 2 then
            numberedLines (pyStrip (chunks5.headD "")) items5
          else text

/-! ## cleanup.py — public API -/

/-- The transformation pipeline of `clean_text` between the initial
empty-check and the final safety fallback (`raw` is the stripped input). -/
def cleanPipeline (raw : String) (level : Int) : String :=
  let level := max 0 (min 2 level)
  let ext := extractPreserved raw
  let result := ext.1
  let result := processParagraphCommands result
  let result := capitalizeProperNouns result
  let result := normalizeWhitespace result
  let result := removeRepeatedWords result
  let result :=
    if level ≥ 1 then
      let r := removeFillers result
      if hasBulletMarkers r then formatBulletList r
      else if hasNumberedMarkers r then formatNumberedList r
      else r
    else result
  let result :=
    if level ≥ 2 then
      strongerPunctuationSmoothing (removeFalseStarts result)
    else result
  let result := normalizeWhitespace result
  let result := sentenceCase result
  let result := ensureTerminalPunctuation result
  restorePreserved result ext.2

/-- `clean_text(text, level)`: empty for blank input, otherwise the pipeline
result, falling back to the stripped raw input when the pipeline output is
blank.  (`not text or not text.strip()` collapses to the single test
`text.strip() == ""`.) -/
def clean_text (text : String) (level : Int) : String :=
  if pyStrip text = "" then ""
  else
    let raw := pyStrip text
    let result := cleanPipeline raw level
    if pyStrip result = "" then raw else result

/-! ## cadence.py — cadence profile and session merge

Python floats are modelled by `ℚ`; the decimal constants of the source
(`0.1`, `0.75`, `0.9`, thresholds) are represented exactly. -/

/-- `_EMA_ALPHA = 0.1`. -/
def EMA_ALPHA : ℚ := 1 / 10

/-- `_MIN_SAMPLES = 20`. -/
def MIN_SAMPLES : ℕ := 20

/-- `PACE_FAST` / `PACE_AVERAGE` / `PACE_DELIBERATE`. -/
def PACE_FAST : String := "Fast"

def PACE_AVERAGE : String := "Average"

def PACE_DELIBERATE : String := "Deliberate"

/-- `CadenceProfile` (the persistent statistics; persistence itself is I/O
and out of scope of the merge logic verified here). -/
structure CadenceProfile : Type where
  mean_pause_ms : ℚ
  p75_pause_ms : ℚ
  p90_pause_ms : ℚ
  sample_count : ℕ
deriving DecidableEq

/-- `CadenceProfile.is_trained`: `sample_count >= _MIN_SAMPLES`. -/
abbrev CadenceProfile.is_trained (p : CadenceProfile) : Prop :=
  p.sample_count ≥ MIN_SAMPLES

/-- `CadenceProfile.pace_label`. -/
def CadenceProfile.pace_label (p : CadenceProfile) : String :=
  if ¬ p.is_trained then PACE_AVERAGE
  else if p.mean_pause_ms < 300 then PACE_FAST
  else if p.mean_pause_ms ≤ 600 then PACE_AVERAGE
  else PACE_DELIBERATE

/-- Stable insertion into an ascending list (`sorted(...)`). -/
def insertSorted (x : ℚ) : List ℚ → List ℚ
  | [] => [x]
  | y :: ys => if x ≤ y then x :: y :: ys else y :: insertSorted x ys

/-- `sorted(pauses)` (ascending). -/
def pySorted (l : List ℚ) : List ℚ := l.foldr insertSorted []

/-- `session_mean = sum(sorted_pauses) / n`. -/
def sessionMean (pauses : List ℚ) : ℚ :=
  (pySorted pauses).sum / ((pySorted pauses).length : ℚ)

/-- `session_p75 = sorted_pauses[int(n * 0.75)] if n >= 4 else session_mean`.
`int(n * 0.75)` is `⌊3n/4⌋` (0.75 is a dyadic float, so the product is
exact). -/
def sessionP75 (pauses : List ℚ) : ℚ :=
  let sorted := pySorted pauses
  let n := sorted.length
  if n ≥ 4 then sorted.getD (3 * n / 4) 0 else sessionMean pauses

/-- `session_p90 = sorted_pauses[int(n * 0.9)] if n >= 10 else session_p75`.
`int(n * 0.9)` equals `⌊9n/10⌋`: the float `0.9` is slightly above 9/10, and
rounding `n * 0.9` to the nearest float never crosses an integer boundary
downwards for any sample count a session can produce. -/
def sessionP90 (pauses : List ℚ) : ℚ :=
  let sorted := pySorted pauses
  let n := sorted.length
  if n ≥ 10 then sorted.getD (9 * n / 10) 0 else sessionP75 pauses

/-- `CadenceTracker.finish_session`, restricted to its pure merge logic: the
session's collected pause list is merged into the given (loaded) profile and
the updated profile is returned; with no pauses the profile is returned
unchanged.  (`load_profile`/`save_profile` are file I/O around this logic.) -/
def finishSession (profile : CadenceProfile) (pauses : List ℚ) : CadenceProfile :=
  if pauses = [] then profile
  else
    let session_mean := sessionMean pauses
    let session_p75 := sessionP75 pauses
    let session_p90 := sessionP90 pauses
    let n := (pySorted pauses).length
    if profile.sample_count = 0 then
      ⟨session_mean, session_p75, session_p90, profile.sample_count + n⟩
    else
      ⟨(1 - EMA_ALPHA) * profile.mean_pause_ms + EMA_ALPHA * session_mean,
       (1 - EMA_ALPHA) * profile.p75_pause_ms + EMA_ALPHA * session_p75,
       (1 - EMA_ALPHA) * profile.p90_pause_ms + EMA_ALPHA * session_p90,
       profile.sample_count + n⟩

/-! ## cadence.py — speech coaching -/

/-- `_SPEECH_PROFILE_MIN_ENTRIES = 5`. -/
def SPEECH_PROFILE_MIN_ENTRIES : ℕ := 5

def FEEDBACK_FAST : String := "Fast"

def FEEDBACK_QUIET : String := "Quiet"

def FEEDBACK_CLEAR : String := "Clear"

def FEEDBACK_STEADY : String := "Steady"

/-- One metrics dict as produced by `SpeechMetrics.analyze` and consumed by
`get_feedback` (the keys read by `get_feedback`, with `dict.get` defaults
covered by the fields themselves). -/
structure SpeechMetrics : Type where
  wpm : ℚ
  energy_rms : ℚ
  confidence : ℚ
  filler_count : ℕ
deriving DecidableEq

/-- `SpeechProfile` (entries plus cached baselines). -/
structure SpeechProfile : Type where
  entries : List SpeechMetrics
  baseline_wpm : ℚ
  baseline_energy : ℚ
deriving DecidableEq

/-- `SpeechProfile.has_baseline`: `len(entries) >= 5`. -/
abbrev SpeechProfile.has_baseline (p : SpeechProfile) : Prop :=
  p.entries.length ≥ SPEECH_PROFILE_MIN_ENTRIES

/-- `SpeechProfile.get_feedback` (1.25 = 5/4, 0.4 = 2/5, 0.92, 0.8 exact). -/
def SpeechProfile.get_feedback (p : SpeechProfile) (m : SpeechMetrics) :
    Option String :=
  if ¬ p.has_baseline then none
  else if 0 < p.baseline_wpm ∧ p.baseline_wpm * (5 / 4) < m.wpm then
    some FEEDBACK_FAST
  else if 0 < p.baseline_energy ∧ m.energy_rms < p.baseline_energy * (2 / 5) then
    some FEEDBACK_QUIET
  else if 92 / 100 < m.confidence ∧ m.filler_count = 0 then
    some FEEDBACK_CLEAR
  else if 4 / 5 < m.confidence then
    some FEEDBACK_STEADY
  else none

/-! ## confidence.py -/

/-- `DEFAULT_HIGH_THRESHOLD = 0.7`. -/
def DEFAULT_HIGH_THRESHOLD : ℚ := 7 / 10

/-- `DEFAULT_LOW_THRESHOLD = 0.4`. -/
def DEFAULT_LOW_THRESHOLD : ℚ := 2 / 5

def TIER_HIGH : String := "high"

def TIER_MEDIUM : String := "medium"

def TIER_LOW : String := "low"

/-- `WordInfo` (the Python field `end` is quoted here because `end` is a
Lean keyword). -/
structure WordInfo : Type where
  word : String
  start : ℚ
  «end» : ℚ
  probability : ℚ
deriving DecidableEq

/-- `WordInfo.tier`. -/
def WordInfo.tier (w : WordInfo) : String :=
  if w.probability ≥ DEFAULT_HIGH_THRESHOLD then TIER_HIGH
  else if w.probability ≥ DEFAULT_LOW_THRESHOLD then TIER_MEDIUM
  else TIER_LOW

/-- `TranscriptionResult`. -/
structure TranscriptionResult : Type where
  text : String
  words : List WordInfo
  has_word_confidence : Bool
deriving DecidableEq

/-- `" ".join(w.word for w in words)`. -/
def joinSpaceGo : List (List Char) → List Char
  | [] => []
  | [x] => x
  | x :: xs => x ++ ' ' :: joinSpaceGo xs

/-- `" ".join(w.word for w in words)`. -/
def joinWordTexts (ws : List WordInfo) : String :=
  String.mk (joinSpaceGo ((ws.map WordInfo.word).map String.data))

/-- `TranscriptionResult.replace_word`: in place in Python; modelled as the
updated record.  The index guard `0 <= index < len(self.words)` makes the
out-of-range case a no-op (Python would otherwise raise `IndexError`). -/
def TranscriptionResult.replace_word (r : TranscriptionResult) (index : Int)
    (new_word : String) : TranscriptionResult :=
  if 0 ≤ index ∧ index < r.words.length then
    let i := index.toNat
    let old := r.words.getD i ⟨"", 0, 0, 0⟩
    let words := r.words.set i ⟨new_word, old.start, old.«end», 1⟩
    ⟨joinWordTexts words, words, r.has_word_confidence⟩
  else r

/-! ## Helper lemmas -/

theorem pyStrip_empty : pyStrip "" = "" := rfl

theorem insertSorted_length (x : ℚ) (l : List ℚ) :
    (insertSorted x l).length = l.length + 1 := by
  induction l with
  | nil => rfl
  | cons y ys ih =>
      by_cases h : x ≤ y <;> simp [insertSorted, h, ih]

theorem pySorted_length (l : List ℚ) : (pySorted l).length = l.length := by
  induction l with
  | nil => rfl
  | cons x xs ih =>
      show (insertSorted x (pySorted xs)).length = xs.length + 1
      rw [insertSorted_length, ih]

/-! ## Claim theorems -/

/-- C1.  For every input string `x` and every level, `clean_text x level`
returns `""` iff `x` is empty or whitespace-only (so for non-blank `x` the
result is never empty), and when every cleanup stage reduces the text to
whitespace the stripped original input is returned instead. -/
theorem clean_text_blank_iff (x : String) (L : Int) :
    (clean_text x L = "" ↔ pyStrip x = "") ∧
    (pyStrip x ≠ "" → pyStrip (cleanPipeline (pyStrip x) L) = "" →
      clean_text x L = pyStrip x) := by
  unfold clean_text
  by_cases h : pyStrip x = ""
  · simp [h]
  · rw [if_neg h]
    by_cases h2 : pyStrip (cleanPipeline (pyStrip x) L) = ""
    · rw [if_pos h2]
      exact ⟨Iff.rfl, fun _ _ => rfl⟩
    · rw [if_neg h2]
      refine ⟨⟨fun he => ?_, fun hx => absurd hx h⟩, fun _ hc => absurd hc h2⟩
      rw [he] at h2
      exact absurd pyStrip_empty h2

/-- Witness for C1: the all-filler input `"um"` is non-blank, the pipeline
reduces it to whitespace, and the safety fallback returns the stripped raw
input. -/
theorem clean_text_blank_iff_witness :
    clean_text "um" 1 = pyStrip "um" :=
  (clean_text_blank_iff "um" 1).2 (by decide) (by decide)

/-- C2 counterexample.  The input `"i need number five please"` contains a
single `number five` marker and no second marker, yet `clean_text` at level 1
reformats it into a one-item numbered list (`"5. Please"` on its own line),
contradicting the claim that a single marker is never reformatted. -/
theorem single_number_marker_reformatted :
    clean_text "i need number five please" 1 = "I need.\n5. Please" ∧
    containsSub "I need.\n5. Please" "\n5. " = true := by
  constructor
  · decide
  · decide

/-- C2 amended.  Bullet/dash reformatting requires plurality: a split that
yields at most one bullet item leaves the text unchanged, and the spec's own
example `"this is a bullet proof vest"` stays plain prose; the ordinal and
pre-formatted `N.` branches of `_format_numbered_list` require two items, so
a single bare ordinal (`"first we eat"`) and a single `"1. "` marker are not
reformatted (the only change to `"1. buy milk"` is sentence casing); but a
single `number <word>`, `number <digit>` or `<word>)` marker IS reformatted
into a one-item numbered list. -/
theorem list_plurality_amended :
    (∀ t : String, (bulletItems t).length ≤ 1 → formatBulletList t = t) ∧
    clean_text "this is a bullet proof vest" 1 = "This is a bullet proof vest." ∧
    containsSub "This is a bullet proof vest." "- " = false ∧
    clean_text "ok number two go" 1 = "Ok.\n2. Go" ∧
    formatNumberedList "first we eat" = "first we eat" ∧
    clean_text "first we eat" 1 = "First we eat." ∧
    formatNumberedList "1. buy milk" = "1. buy milk" ∧
    clean_text "1. buy milk" 1 = "1. Buy milk" ∧
    formatNumberedList "i need number 5 please" = "i need\n5. Please" ∧
    clean_text "i need number 5 please" 1 = "I need.\n5. Please" ∧
    formatNumberedList "two) buy milk" = "2. Buy milk" ∧
    clean_text "two) buy milk" 1 = "2. Buy milk" := by
  refine ⟨fun t h => ?_, by decide, by decide, by decide, by decide, by decide,
    by decide, by decide, by decide, by decide, by decide, by decide⟩
  rcases hb : bulletItems t with _ | ⟨a, _ | ⟨b, rest⟩⟩
  · simp [formatBulletList, hb]
  · simp [formatBulletList, hb]
  · rw [hb] at h
    simp at h

/-- Witness for C2-amended: the universal one-item-guard clause applied at a
concrete input. -/
theorem list_plurality_amended_witness :
    formatBulletList "plain text" = "plain text" :=
  list_plurality_amended.1 "plain text" (by decide)

/-- C3 (code bug).  On the input `"u@v.w`x um y`"` the email alternative of
`_PRESERVE_PATTERN` greedily absorbs the opening backtick, so the code span
`` `x um y` `` is not protected: filler removal deletes the `um` inside it
and the output no longer contains the span byte-for-byte. -/
theorem codespan_not_preserved :
    clean_text "u@v.w`x um y`" 1 = "u@v.w`x y`." ∧
    containsSub "u@v.w`x um y`" "`x um y`" = true ∧
    containsSub "u@v.w`x y`." "`x um y`" = false := by
  refine ⟨by decide, by decide, by decide⟩

/-- C4 counterexample.  `clean_text` is not idempotent: a cleaned output
ending in a URL gets its appended terminal period absorbed into the URL token
on the second pass, and a further period is appended. -/
theorem clean_text_not_idempotent :
    clean_text "see https://x.com" 0 = "See https://x.com." ∧
    clean_text "See https://x.com." 0 = "See https://x.com.." ∧
    clean_text (clean_text "see https://x.com" 0) 0 ≠
      clean_text "see https://x.com" 0 := by
  have h1 : clean_text "see https://x.com" 0 = "See https://x.com." := by decide
  have h2 : clean_text "See https://x.com." 0 = "See https://x.com.." := by decide
  refine ⟨h1, h2, ?_⟩
  rw [h1, h2]
  decide

/-- C4 amended.  Re-running cleanup at a fixed level is stable on already
well-formed prose outputs (the general idempotence fails only where a second
pass re-interprets the cleaned text, e.g. a trailing preserved URL absorbing
the appended period). -/
theorem clean_text_second_pass_stable :
    clean_text (clean_text "hello world" 0) 0 = clean_text "hello world" 0 ∧
    clean_text (clean_text "i was um thinking about it" 1) 1 =
      clean_text "i was um thinking about it" 1 := by
  have h1 : clean_text "hello world" 0 = "Hello world." := by decide
  have h2 : clean_text "i was um thinking about it" 1 =
      "I was thinking about it." := by decide
  refine ⟨?_, ?_⟩
  · rw [h1]; decide
  · rw [h2]; decide

/-- C5 (code bug).  `_LIKE_PROTECT` omits the inflection `looked` (while
covering `sounded`, `smelled`, `tasted`, `felt`), so the comparison
`"looked like rain"` loses its `like` in filler removal; the present-tense
form is protected as the claim describes. -/
theorem looked_like_stripped :
    removeFillers "it looked like rain" = "it looked rain" ∧
    removeFillers "it looks like rain" = "it looks like rain" ∧
    clean_text "it looked like rain" 1 = "It looked rain." := by
  refine ⟨by decide, by decide, by decide⟩

/-- C6.  `finish_session` merge logic: an empty session leaves the profile
unchanged; with prior `sample_count = 0` the session statistics are adopted
outright; otherwise each statistic is blended as `0.9*old + 0.1*session`;
`sample_count` grows by the number of pauses; the session p75 falls back to
the session mean below 4 pauses and the session p90 falls back to the session
p75 below 10 pauses. -/
theorem finishSession_spec (p : CadenceProfile) (pauses : List ℚ) :
    (pauses = [] → finishSession p pauses = p) ∧
    (pauses ≠ [] → p.sample_count = 0 →
      finishSession p pauses =
        ⟨sessionMean pauses, sessionP75 pauses, sessionP90 pauses,
          pauses.length⟩) ∧
    (pauses ≠ [] → p.sample_count ≠ 0 →
      finishSession p pauses =
        ⟨(9 / 10) * p.mean_pause_ms + (1 / 10) * sessionMean pauses,
         (9 / 10) * p.p75_pause_ms + (1 / 10) * sessionP75 pauses,
         (9 / 10) * p.p90_pause_ms + (1 / 10) * sessionP90 pauses,
         p.sample_count + pauses.length⟩) ∧
    (pauses.length < 4 → sessionP75 pauses = sessionMean pauses) ∧
    (pauses.length < 10 → sessionP90 pauses = sessionP75 pauses) := by
  refine ⟨fun h => by simp [finishSession, h], ?_, ?_, ?_, ?_⟩
  · intro hne h0
    simp only [finishSession, if_neg hne, if_pos h0, h0, pySorted_length]
    norm_num
  · intro hne h0
    simp only [finishSession, if_neg hne, if_neg h0, pySorted_length]
    norm_num [EMA_ALPHA]
  · intro h4
    have hl : (pySorted pauses).length < 4 := by rw [pySorted_length]; exact h4
    simp only [sessionP75, if_neg (by omega : ¬ (pySorted pauses).length ≥ 4)]
  · intro h10
    have hl : (pySorted pauses).length < 10 := by rw [pySorted_length]; exact h10
    simp only [sessionP90, if_neg (by omega : ¬ (pySorted pauses).length ≥ 10)]

/-- Witness for C6: a first session with two pauses establishes the session
statistics outright (and the small-sample fallbacks collapse p75 and p90 to
the mean). -/
theorem finishSession_spec_witness :
    finishSession ⟨0, 0, 0, 0⟩ [300, 200] =
      ⟨sessionMean [300, 200], sessionP75 [300, 200], sessionP90 [300, 200], 2⟩ :=
  (finishSession_spec ⟨0, 0, 0, 0⟩ [300, 200]).2.1 (by simp) rfl

/-- C7.  `get_feedback`: `None` below 5 entries; with a baseline, the labels
are checked in the fixed order Fast, Quiet, Clear, Steady, each with a strict
threshold (`wpm > 1.25*baseline_wpm` with positive baseline, `energy <
0.4*baseline_energy` with positive baseline, `confidence > 0.92` with zero
fillers, `confidence > 0.80`), so a value exactly at a boundary never
triggers. -/
theorem get_feedback_spec (p : SpeechProfile) (m : SpeechMetrics) :
    (p.entries.length < 5 → p.get_feedback m = none) ∧
    (p.entries.length ≥ 5 →
      (p.get_feedback m = some FEEDBACK_FAST ↔
        0 < p.baseline_wpm ∧ p.baseline_wpm * (5 / 4) < m.wpm) ∧
      (p.get_feedback m = some FEEDBACK_QUIET ↔
        ¬ (0 < p.baseline_wpm ∧ p.baseline_wpm * (5 / 4) < m.wpm) ∧
        (0 < p.baseline_energy ∧ m.energy_rms < p.baseline_energy * (2 / 5))) ∧
      (p.get_feedback m = some FEEDBACK_CLEAR ↔
        ¬ (0 < p.baseline_wpm ∧ p.baseline_wpm * (5 / 4) < m.wpm) ∧
        ¬ (0 < p.baseline_energy ∧ m.energy_rms < p.baseline_energy * (2 / 5)) ∧
        (92 / 100 < m.confidence ∧ m.filler_count = 0)) ∧
      (p.get_feedback m = some FEEDBACK_STEADY ↔
        ¬ (0 < p.baseline_wpm ∧ p.baseline_wpm * (5 / 4) < m.wpm) ∧
        ¬ (0 < p.baseline_energy ∧ m.energy_rms < p.baseline_energy * (2 / 5)) ∧
        ¬ (92 / 100 < m.confidence ∧ m.filler_count = 0) ∧
        4 / 5 < m.confidence)) := by
  constructor
  · intro h5
    have hnb : ¬ p.has_baseline := by
      show ¬ p.entries.length ≥ SPEECH_PROFILE_MIN_ENTRIES
      unfold SPEECH_PROFILE_MIN_ENTRIES
      omega
    unfold SpeechProfile.get_feedback
    rw [if_pos hnb]
  · intro h5
    have hb : p.has_baseline := h5
    unfold SpeechProfile.get_feedback
    rw [if_neg (not_not_intro hb)]
    by_cases hf : 0 < p.baseline_wpm ∧ p.baseline_wpm * (5 / 4) < m.wpm
    · rw [if_pos hf]
      exact ⟨iff_of_true rfl hf,
        iff_of_false (by decide) (fun h2 => h2.1 hf),
        iff_of_false (by decide) (fun h2 => h2.1 hf),
        iff_of_false (by decide) (fun h2 => h2.1 hf)⟩
    · rw [if_neg hf]
      by_cases hq : 0 < p.baseline_energy ∧ m.energy_rms < p.baseline_energy * (2 / 5)
      · rw [if_pos hq]
        exact ⟨iff_of_false (by decide) hf,
          iff_of_true rfl ⟨hf, hq⟩,
          iff_of_false (by decide) (fun h2 => h2.2.1 hq),
          iff_of_false (by decide) (fun h2 => h2.2.1 hq)⟩
      · rw [if_neg hq]
        by_cases hc : 92 / 100 < m.confidence ∧ m.filler_count = 0
        · rw [if_pos hc]
          exact ⟨iff_of_false (by decide) hf,
            iff_of_false (by decide) (fun h2 => hq h2.2),
            iff_of_true rfl ⟨hf, hq, hc⟩,
            iff_of_false (by decide) (fun h2 => h2.2.2.1 hc)⟩
        · rw [if_neg hc]
          by_cases hs : (4 : ℚ) / 5 < m.confidence
          · rw [if_pos hs]
            exact ⟨iff_of_false (by decide) hf,
              iff_of_false (by decide) (fun h2 => hq h2.2),
              iff_of_false (by decide) (fun h2 => hc h2.2.2),
              iff_of_true rfl ⟨hf, hq, hc, hs⟩⟩
          · rw [if_neg hs]
            exact ⟨iff_of_false (by decide) hf,
              iff_of_false (by decide) (fun h2 => hq h2.2),
              iff_of_false (by decide) (fun h2 => hc h2.2.2),
              iff_of_false (by decide) (fun h2 => hs h2.2.2.2)⟩

/-- Witness for C7: with baseline 100 wpm, a current 126 wpm (strictly above
125) triggers `Fast`. -/
theorem get_feedback_spec_witness :
    SpeechProfile.get_feedback
      ⟨[⟨100, 1, 1, 0⟩, ⟨100, 1, 1, 0⟩, ⟨100, 1, 1, 0⟩, ⟨100, 1, 1, 0⟩,
        ⟨100, 1, 1, 0⟩], 100, 1⟩
      ⟨126, 1, 1, 0⟩ = some FEEDBACK_FAST :=
  (((get_feedback_spec _ _).2 (by norm_num)).1).mpr (by norm_num)

/-- C8.  `WordInfo.tier` bands: `high` iff probability ≥ 0.70, `medium` iff
0.40 ≤ probability < 0.70, `low` iff probability < 0.40. -/
theorem tier_spec (w : WordInfo) :
    (w.tier = TIER_HIGH ↔ 7 / 10 ≤ w.probability) ∧
    (w.tier = TIER_MEDIUM ↔ 2 / 5 ≤ w.probability ∧ w.probability < 7 / 10) ∧
    (w.tier = TIER_LOW ↔ w.probability < 2 / 5) := by
  unfold WordInfo.tier
  by_cases hh : w.probability ≥ DEFAULT_HIGH_THRESHOLD
  · rw [if_pos hh]
    have hh' : (7 : ℚ) / 10 ≤ w.probability := hh
    exact ⟨iff_of_true rfl hh',
      iff_of_false (by decide) (fun h2 => absurd h2.2 (not_lt.mpr hh')),
      iff_of_false (by decide) (not_lt.mpr (le_trans (by norm_num) hh'))⟩
  · rw [if_neg hh]
    by_cases hm : w.probability ≥ DEFAULT_LOW_THRESHOLD
    · rw [if_pos hm]
      have hh' : w.probability < 7 / 10 := not_le.mp hh
      have hm' : (2 : ℚ) / 5 ≤ w.probability := hm
      exact ⟨iff_of_false (by decide) hh,
        iff_of_true rfl ⟨hm', hh'⟩,
        iff_of_false (by decide) (not_lt.mpr hm')⟩
    · rw [if_neg hm]
      have hm' : w.probability < 2 / 5 := not_le.mp hm
      exact ⟨iff_of_false (by decide) hh,
        iff_of_false (by decide) (fun h2 => absurd h2.1 hm),
        iff_of_true rfl hm'⟩

/-- Witness for C8: probability exactly 0.70 is `high` (boundary inclusive). -/
theorem tier_spec_witness :
    WordInfo.tier ⟨"w", 0, 0, 7 / 10⟩ = TIER_HIGH :=
  (tier_spec ⟨"w", 0, 0, 7 / 10⟩).1.mpr (by norm_num)

/-- C9.  `replace_word` is total: out-of-range indices (including negative
ones) leave the result completely unchanged; an in-range index replaces the
word's text by `new_word` with probability 1.0 (keeping the old timing) and
resynthesizes `text` as the space-joined word texts. -/
theorem replace_word_spec (r : TranscriptionResult) (i : Int) (nw : String) :
    (¬ (0 ≤ i ∧ i < r.words.length) → r.replace_word i nw = r) ∧
    ((0 ≤ i ∧ i < r.words.length) →
      r.replace_word i nw =
        ⟨joinWordTexts (r.words.set i.toNat
            ⟨nw, (r.words.getD i.toNat ⟨"", 0, 0, 0⟩).start,
              (r.words.getD i.toNat ⟨"", 0, 0, 0⟩).«end», 1⟩),
          r.words.set i.toNat
            ⟨nw, (r.words.getD i.toNat ⟨"", 0, 0, 0⟩).start,
              (r.words.getD i.toNat ⟨"", 0, 0, 0⟩).«end», 1⟩,
          r.has_word_confidence⟩) := by
  constructor
  · intro h
    simp [TranscriptionResult.replace_word, h]
  · intro h
    simp [TranscriptionResult.replace_word, h]

/-- Witness for C9: replacing word 0 of a two-word result rewrites its text,
sets probability 1 and resynthesizes the joined text; an out-of-range index
is also exercised through the no-op clause in `replace_word_spec` elsewhere. -/
theorem replace_word_spec_witness :
    TranscriptionResult.replace_word
      ⟨"a b", [⟨"a", 0, 1, 1 / 2⟩, ⟨"b", 1, 2, 1⟩], true⟩ 0 "c" =
      ⟨"c b", [⟨"c", 0, 1, 1⟩, ⟨"b", 1, 2, 1⟩], true⟩ :=
  ((replace_word_spec ⟨"a b", [⟨"a", 0, 1, 1 / 2⟩, ⟨"b", 1, 2, 1⟩], true⟩ 0 "c").2
    (by constructor <;> decide)).trans (by decide)

/-- C10.  `pace_label`: `"Average"` whenever the profile is untrained
(`sample_count < 20`); for a trained profile the label is `"Fast"` iff the
mean pause is under 300 ms, `"Average"` iff it lies in [300, 600], and
`"Deliberate"` iff it exceeds 600 ms. -/
theorem pace_label_spec (p : CadenceProfile) :
    (p.sample_count < 20 → p.pace_label = PACE_AVERAGE) ∧
    (20 ≤ p.sample_count →
      (p.pace_label = PACE_FAST ↔ p.mean_pause_ms < 300) ∧
      (p.pace_label = PACE_AVERAGE ↔
        300 ≤ p.mean_pause_ms ∧ p.mean_pause_ms ≤ 600) ∧
      (p.pace_label = PACE_DELIBERATE ↔ 600 < p.mean_pause_ms)) := by
  constructor
  · intro h
    have hnt : ¬ p.is_trained := by
      show ¬ p.sample_count ≥ MIN_SAMPLES
      unfold MIN_SAMPLES
      omega
    unfold CadenceProfile.pace_label
    rw [if_pos hnt]
  · intro h
    have ht : p.is_trained := h
    unfold CadenceProfile.pace_label
    rw [if_neg (not_not_intro ht)]
    by_cases hf : p.mean_pause_ms < 300
    · rw [if_pos hf]
      exact ⟨iff_of_true rfl hf,
        iff_of_false (by decide) (fun h2 => absurd hf (not_lt.mpr h2.1)),
        iff_of_false (by decide) (by intro h2; linarith)⟩
    · rw [if_neg hf]
      by_cases ha : p.mean_pause_ms ≤ 600
      · rw [if_pos ha]
        exact ⟨iff_of_false (by decide) hf,
          iff_of_true rfl ⟨not_lt.mp hf, ha⟩,
          iff_of_false (by decide) (not_lt.mpr ha)⟩
      · rw [if_neg ha]
        have ha' : 600 < p.mean_pause_ms := not_le.mp ha
        exact ⟨iff_of_false (by decide) (by intro h2; linarith),
          iff_of_false (by decide) (fun h2 => absurd h2.2 ha),
          iff_of_true rfl ha'⟩

/-- Witness for C10: an untrained profile reports `"Average"` regardless of
its stored mean. -/
theorem pace_label_spec_witness :
    CadenceProfile.pace_label ⟨1000, 0, 0, 5⟩ = PACE_AVERAGE :=
  (pace_label_spec ⟨1000, 0, 0, 5⟩).1 (by norm_num)

end Muttr
